import Mathlib

/-!
Verification development for the credit-approval core
(src/loans/services.py of the CreditApprovalSystem repository).

The four service functions are shallowly embedded:
real-number arithmetic of the source is carried out in ℚ,
machine integers in ℤ, nullable columns as Option, and the
database lookup as a search over an explicit list of customers.
A call of the installment formula that would raise
ZeroDivisionError in the source is modelled as Option.none,
and the exception propagation out of check_loan_eligibility as
an Option result for the whole call.
-/

namespace CreditApproval

/-- A calendar date, reduced to the two observations the services make of
dates: total comparison (end_date__gte filters) and the calendar year
(start_date__year filter). Ordered lexicographically by year, then by the
ordinal of the day inside the year. -/
structure Date where
  year : ℤ
  dayOfYear : ℤ
deriving DecidableEq

/-- Date comparison: a ≤ b in the year-then-day lexicographic order. -/
def dateLe (a b : Date) : Bool :=
  decide (a.year < b.year ∨ (a.year = b.year ∧ a.dayOfYear ≤ b.dayOfYear))

/-- A row of the loans table (src/loans/models.py, class Loan), restricted to
the columns the services read. start_date and end_date are nullable. -/
structure Loan where
  loan_amount : ℚ
  tenure : ℤ
  interest_rate : ℚ
  monthly_repayment : ℚ
  emis_paid_on_time : ℤ
  start_date : Option Date
  end_date : Option Date
deriving DecidableEq

/-- A row of the customers table (src/loans/models.py, class Customer) with
its reverse relation loans, restricted to the columns the services read. -/
structure Customer where
  id : ℤ
  monthly_salary : ℚ
  approved_limit : ℚ
  loans : List Loan
deriving DecidableEq

/-- The five-component result tuple of check_loan_eligibility
(customer_or_none, approval, interest_rate, corrected_rate,
monthly_installment). -/
structure EligResult where
  customer : Option Customer
  approval : Bool
  interest_rate : ℚ
  corrected_rate : ℚ
  monthly_installment : ℚ
deriving DecidableEq

/-- Python int() applied to a non-integral number: truncation toward zero. -/
def pyInt (q : ℚ) : ℤ :=
  if q < 0 then ⌈q⌉ else ⌊q⌋

/-- Python round() on an exact value: round half to even (banker's
rounding) to the nearest integer. -/
def roundHalfEven (q : ℚ) : ℤ :=
  if q - ⌊q⌋ < 1/2 then ⌊q⌋
  else if 1/2 < q - ⌊q⌋ then ⌊q⌋ + 1
  else if ⌊q⌋ % 2 = 0 then ⌊q⌋ else ⌊q⌋ + 1

/-- Python round(x, 2): round half to even at two decimal places. -/
def pyRound2 (q : ℚ) : ℚ :=
  (roundHalfEven (q * 100) : ℚ) / 100

/-- services.calculate_approved_limit: 36 * monthly_salary, rounded (with
Python round, i.e. half to even) to the nearest multiple of 100000. -/
def calculate_approved_limit (monthly_salary : ℤ) : ℤ :=
  roundHalfEven ((36 * monthly_salary : ℤ) / (100000 : ℚ)) * 100000

/-- services.calculate_monthly_installment. Result none models a
ZeroDivisionError raised by the source: principal / 0 in the zero-rate
branch, a zero denominator (1+r)^n - 1 = 0 in the compound branch, and
0.0 ** negative when 1 + r = 0. -/
def calculate_monthly_installment (principal annual_rate : ℚ)
    (tenure_months : ℤ) : Option ℚ :=
  if annual_rate = 0 then
    if tenure_months = 0 then none
    else some (principal / (tenure_months : ℚ))
  else
    let monthly_rate := annual_rate / (12 * 100)
    if tenure_months < 0 ∧ 1 + monthly_rate = 0 then none
    else
      let growth := (1 + monthly_rate) ^ tenure_months
      if growth - 1 = 0 then none
      else some (pyRound2 (principal * monthly_rate * growth / (growth - 1)))

/-- The filter loans.filter(end_date__gte=date.today()) used at
services.py lines 50 and 117: SQL comparison, so a NULL end_date row is
excluded. -/
def isCurrent (today : Date) (l : Loan) : Bool :=
  match l.end_date with
  | none => false
  | some d => dateLe today d

/-- The filter loans.filter(start_date__year=current_year) of services.py
line 79: NULL start_date rows are excluded. -/
def startedInCurrentYear (today : Date) (l : Loan) : Bool :=
  match l.start_date with
  | none => false
  | some d => decide (d.year = today.year)

/-- services.py line 51: sum of loan_amount over the current-loan filter. -/
def totalCurrentLoanAmount (today : Date) (loans : List Loan) : ℚ :=
  ((loans.filter (isCurrent today)).map Loan.loan_amount).sum

/-- services.py line 61: total_emis, the sum of tenure over all loans. -/
def totalEmis (loans : List Loan) : ℤ :=
  (loans.map Loan.tenure).sum

/-- services.py line 62: total_paid_on_time over all loans. -/
def totalPaidOnTime (loans : List Loan) : ℤ :=
  (loans.map Loan.emis_paid_on_time).sum

/-- services.py line 63: on_time_ratio, zero when total tenure is not
positive. -/
def onTimeFraction (loans : List Loan) : ℚ :=
  if 0 < totalEmis loans then
    (totalPaidOnTime loans : ℚ) / (totalEmis loans : ℚ)
  else 0

/-- services.py lines 68-75: banded loan-count component (20 points). -/
def loanCountScore (total_loans : ℕ) : ℚ :=
  if total_loans ≤ 3 then 20
  else if total_loans ≤ 6 then 15
  else if total_loans ≤ 10 then 10
  else 5

/-- services.py line 79: number of loans whose start date falls in the
current calendar year. -/
def currentYearLoanCount (today : Date) (loans : List Loan) : ℕ :=
  (loans.filter (startedInCurrentYear today)).length

/-- services.py lines 80-87: banded current-year activity component
(20 points). -/
def activityScore (current_year_loans : ℕ) : ℚ :=
  if current_year_loans = 0 then 20
  else if current_year_loans ≤ 2 then 15
  else if current_year_loans ≤ 4 then 10
  else 5

/-- services.py line 90: total loan_amount over all loans. -/
def totalLoanVolume (loans : List Loan) : ℚ :=
  (loans.map Loan.loan_amount).sum

/-- services.py lines 93-100: banded volume component (25 points). -/
def volumeScore (volume_fraction : ℚ) : ℚ :=
  if volume_fraction ≤ 1/2 then 25
  else if volume_fraction ≤ 1 then 20
  else if volume_fraction ≤ 2 then 10
  else 5

/-- services.calculate_credit_score, with date.today() passed explicitly. -/
def calculate_credit_score (today : Date) (customer : Customer) : ℤ :=
  if customer.approved_limit < totalCurrentLoanAmount today customer.loans then 0
  else if customer.loans.length = 0 then 50
  else
    let on_time_score := onTimeFraction customer.loans * 35
    let loan_count_score := loanCountScore customer.loans.length
    let activity_score := activityScore (currentYearLoanCount today customer.loans)
    let volume_fraction :=
      if 0 < customer.approved_limit then
        totalLoanVolume customer.loans / customer.approved_limit
      else 1
    let volume_score := volumeScore volume_fraction
    let total_score := on_time_score + loan_count_score + activity_score + volume_score
    min 100 (pyInt total_score)

/-- Customer.objects.get(id=customer_id) over an explicit table of
customers, none when the id is absent. -/
def findCustomer (db : List Customer) (customer_id : ℤ) : Option Customer :=
  db.find? (fun c => decide (c.id = customer_id))

/-- services.py line 118: sum of monthly_repayment over the current-loan
filter. -/
def totalCurrentEmis (today : Date) (loans : List Loan) : ℚ :=
  ((loans.filter (isCurrent today)).map Loan.monthly_repayment).sum

/-- services.check_loan_eligibility, with date.today() passed explicitly
and the customer table passed as a list. Result none models a
ZeroDivisionError propagating out of calculate_monthly_installment. -/
def check_loan_eligibility (today : Date) (db : List Customer)
    (customer_id : ℤ) (loan_amount interest_rate : ℚ) (tenure : ℤ) :
    Option EligResult :=
  match findCustomer db customer_id with
  | none => some ⟨none, false, interest_rate, interest_rate, 0⟩
  | some customer =>
    if (1/2 : ℚ) * customer.monthly_salary < totalCurrentEmis today customer.loans then
      (calculate_monthly_installment loan_amount interest_rate tenure).map
        (fun emi => ⟨some customer, false, interest_rate, interest_rate, emi⟩)
    else
      let credit_score := calculate_credit_score today customer
      let decision :=
        if 50 < credit_score then (true, interest_rate)
        else if 30 < credit_score ∧ credit_score ≤ 50 then
          (true, if 12 < interest_rate then interest_rate else 12)
        else if 10 < credit_score ∧ credit_score ≤ 30 then
          (true, if 16 < interest_rate then interest_rate else 16)
        else (false, interest_rate)
      (calculate_monthly_installment loan_amount decision.2 tenure).map
        (fun emi => ⟨some customer, decision.1, interest_rate, decision.2, emi⟩)

/-- The current-loan predicate in the words of the specification
(Modelled from the spec: a current loan is any loan whose end date is
absent or on or after today). Used only to compare the spec's notion of
current loan with the filter the source actually applies. -/
def specIsCurrent (today : Date) (l : Loan) : Bool :=
  match l.end_date with
  | none => true
  | some d => dateLe today d

/-- Round half up to the nearest multiple of 100000, in the words of the
specification (Modelled from the spec: standard round-half-up of
36 x monthly income to the nearest multiple of 100,000). Used only to
compare the spec's rounding with the source's. -/
def specRoundHalfUpLakh (monthly_salary : ℤ) : ℤ :=
  ⌊(36 * monthly_salary : ℤ) / (100000 : ℚ) + 1/2⌋ * 100000

/-! ## Helper lemmas -/

lemma pyInt_nonneg (q : ℚ) (h : 0 ≤ q) : 0 ≤ pyInt q := by
  unfold pyInt
  rw [if_neg (not_lt.mpr h)]
  exact Int.floor_nonneg.mpr h

lemma pyInt_mono {x y : ℚ} (h : x ≤ y) : pyInt x ≤ pyInt y := by
  unfold pyInt
  split_ifs with hx hy hy
  · exact Int.ceil_le_ceil h
  · exact le_trans (Int.ceil_le.mpr (by exact_mod_cast le_of_lt hx))
      (Int.floor_nonneg.mpr (not_lt.mp hy))
  · exact absurd (lt_of_le_of_lt h hy) hx
  · exact Int.floor_le_floor h

lemma roundHalfEven_ge (q : ℚ) : q - 1/2 ≤ (roundHalfEven q : ℚ) := by
  have hfu : q < (⌊q⌋ : ℚ) + 1 := Int.lt_floor_add_one q
  unfold roundHalfEven
  split_ifs with h1 h2 h3
  · linarith
  · push_cast
    linarith
  · linarith [not_lt.mp h2]
  · push_cast
    linarith

lemma roundHalfEven_le (q : ℚ) : (roundHalfEven q : ℚ) ≤ q + 1/2 := by
  have hfl : (⌊q⌋ : ℚ) ≤ q := Int.floor_le q
  unfold roundHalfEven
  split_ifs with h1 h2 h3
  · linarith
  · push_cast
    linarith
  · linarith
  · push_cast
    linarith [not_lt.mp h1]

lemma loanCountScore_nonneg (n : ℕ) : 0 ≤ loanCountScore n := by
  unfold loanCountScore
  split_ifs <;> norm_num

lemma activityScore_nonneg (k : ℕ) : 0 ≤ activityScore k := by
  unfold activityScore
  split_ifs <;> norm_num

lemma volumeScore_nonneg (r : ℚ) : 0 ≤ volumeScore r := by
  unfold volumeScore
  split_ifs <;> norm_num

lemma totalPaidOnTime_nonneg (loans : List Loan)
    (h : ∀ l ∈ loans, 0 ≤ l.emis_paid_on_time) : 0 ≤ totalPaidOnTime loans := by
  unfold totalPaidOnTime
  apply List.sum_nonneg
  intro x hx
  obtain ⟨l, hl, rfl⟩ := List.mem_map.mp hx
  exact h l hl

lemma onTimeFraction_nonneg (loans : List Loan)
    (h : ∀ l ∈ loans, 0 ≤ l.emis_paid_on_time) : 0 ≤ onTimeFraction loans := by
  unfold onTimeFraction
  split_ifs with hpos
  · exact div_nonneg (by exact_mod_cast totalPaidOnTime_nonneg loans h)
      (by exact_mod_cast le_of_lt hpos)
  · exact le_refl 0

/-! ## Claims -/

/-- Claim C3: for every customer whose current loans' amounts sum strictly
above the customer's approved limit, calculate_credit_score returns exactly
0, regardless of every other field of the snapshot (the theorem has no
hypothesis on any other scoring factor). -/
theorem c3_hard_override (today : Date) (c : Customer)
    (h : c.approved_limit < totalCurrentLoanAmount today c.loans) :
    calculate_credit_score today c = 0 := by
  unfold calculate_credit_score
  rw [if_pos h]

/-- Witness for C3 at a concrete customer: one current loan of 2000000
against an approved limit of 100000 scores 0 even with a perfect payment
history. -/
theorem c3_hard_override_witness :
    calculate_credit_score ⟨2025, 100⟩
      ⟨1, 50000, 100000,
        [⟨2000000, 12, 10, 8791, 12, some ⟨2025, 1⟩, some ⟨2026, 1⟩⟩]⟩ = 0 :=
  c3_hard_override ⟨2025, 100⟩
    ⟨1, 50000, 100000,
      [⟨2000000, 12, 10, 8791, 12, some ⟨2025, 1⟩, some ⟨2026, 1⟩⟩]⟩
    (by norm_num [totalCurrentLoanAmount, isCurrent, dateLe, List.filter])

/-- Claim C4: for an existing customer whose current-loan installments sum
strictly above half the monthly income, check_loan_eligibility denies
(approval = false, both returned rates equal the requested rate) and the
returned installment is the one computed at the requested rate and tenure.
The result does not depend on the credit score (no hypothesis on it). -/
theorem c4_burden_denial (today : Date) (db : List Customer) (cid : ℤ)
    (amount rate : ℚ) (tenure : ℤ) (c : Customer)
    (hfind : findCustomer db cid = some c)
    (hburden : (1/2 : ℚ) * c.monthly_salary < totalCurrentEmis today c.loans) :
    check_loan_eligibility today db cid amount rate tenure =
      (calculate_monthly_installment amount rate tenure).map
        (fun emi => ⟨some c, false, rate, rate, emi⟩) := by
  unfold check_loan_eligibility
  rw [hfind]
  dsimp only
  simp only [if_pos hburden]

/-- Witness for C4: a customer with salary 80000 and a current loan whose
installment is 50000 (62.5 percent of income) is denied at the requested
rate. -/
theorem c4_burden_denial_witness :
    check_loan_eligibility ⟨2025, 100⟩
      [⟨3, 80000, 2900000,
        [⟨500000, 12, 10, 50000, 0, some ⟨2025, 1⟩, some ⟨2026, 1⟩⟩]⟩]
      3 0 10 12 =
      some ⟨some ⟨3, 80000, 2900000,
        [⟨500000, 12, 10, 50000, 0, some ⟨2025, 1⟩, some ⟨2026, 1⟩⟩]⟩,
        false, 10, 10, 0⟩ := by
  have h := c4_burden_denial ⟨2025, 100⟩
    [⟨3, 80000, 2900000,
      [⟨500000, 12, 10, 50000, 0, some ⟨2025, 1⟩, some ⟨2026, 1⟩⟩]⟩]
    3 0 10 12
    ⟨3, 80000, 2900000,
      [⟨500000, 12, 10, 50000, 0, some ⟨2025, 1⟩, some ⟨2026, 1⟩⟩]⟩
    (by rfl)
    (by norm_num [totalCurrentEmis, isCurrent, dateLe, List.filter])
  rw [h]
  norm_num [calculate_monthly_installment, pyRound2, roundHalfEven]

/-- Claim C2: for an existing customer who passes the EMI-burden check,
check_loan_eligibility applies the tier policy on the computed credit
score: score above 50 approves at the unchanged rate; score in (30, 50]
approves at the requested rate if above 12, else at exactly 12; score in
(10, 30] approves at the requested rate if above 16, else at exactly 16;
score at most 10 denies at the unchanged rate; in every tier the returned
installment is computed at the corrected rate; and a customer with no
loans (and a non-negative approved limit, per the data model) scores
exactly 50, so with requested rate 5 the corrected rate is 12. -/
theorem c2_tier_policy (today : Date) (db : List Customer) (cid : ℤ)
    (amount rate : ℚ) (tenure : ℤ) (c : Customer)
    (hfind : findCustomer db cid = some c)
    (hburden : ¬ ((1/2 : ℚ) * c.monthly_salary < totalCurrentEmis today c.loans)) :
    (50 < calculate_credit_score today c →
      check_loan_eligibility today db cid amount rate tenure =
        (calculate_monthly_installment amount rate tenure).map
          (fun emi => ⟨some c, true, rate, rate, emi⟩))
    ∧ (30 < calculate_credit_score today c ∧ calculate_credit_score today c ≤ 50 →
      check_loan_eligibility today db cid amount rate tenure =
        (calculate_monthly_installment amount (if 12 < rate then rate else 12) tenure).map
          (fun emi => ⟨some c, true, rate, if 12 < rate then rate else 12, emi⟩))
    ∧ (10 < calculate_credit_score today c ∧ calculate_credit_score today c ≤ 30 →
      check_loan_eligibility today db cid amount rate tenure =
        (calculate_monthly_installment amount (if 16 < rate then rate else 16) tenure).map
          (fun emi => ⟨some c, true, rate, if 16 < rate then rate else 16, emi⟩))
    ∧ (calculate_credit_score today c ≤ 10 →
      check_loan_eligibility today db cid amount rate tenure =
        (calculate_monthly_installment amount rate tenure).map
          (fun emi => ⟨some c, false, rate, rate, emi⟩))
    ∧ (c.loans = [] → 0 ≤ c.approved_limit →
        calculate_credit_score today c = 50) := by
  refine ⟨?_, ?_, ?_, ?_, ?_⟩
  · intro h
    unfold check_loan_eligibility
    rw [hfind]
    dsimp only
    rw [if_neg hburden, if_pos h]
  · intro h
    unfold check_loan_eligibility
    rw [hfind]
    dsimp only
    rw [if_neg hburden, if_neg (by omega : ¬ 50 < calculate_credit_score today c),
      if_pos h]
  · intro h
    unfold check_loan_eligibility
    rw [hfind]
    dsimp only
    rw [if_neg hburden, if_neg (by omega : ¬ 50 < calculate_credit_score today c),
      if_neg (by omega :
        ¬ (30 < calculate_credit_score today c ∧ calculate_credit_score today c ≤ 50)),
      if_pos h]
  · intro h
    unfold check_loan_eligibility
    rw [hfind]
    dsimp only
    rw [if_neg hburden, if_neg (by omega : ¬ 50 < calculate_credit_score today c),
      if_neg (by omega :
        ¬ (30 < calculate_credit_score today c ∧ calculate_credit_score today c ≤ 50)),
      if_neg (by omega :
        ¬ (10 < calculate_credit_score today c ∧ calculate_credit_score today c ≤ 30))]
  · intro hempty hlim
    unfold calculate_credit_score
    rw [hempty]
    rw [if_neg (by
      simp only [totalCurrentLoanAmount, List.filter_nil, List.map_nil, List.sum_nil]
      exact not_lt.mpr hlim)]
    simp

/-- Witness for C2: a new customer (no loans, salary 50000, limit 1800000)
requesting rate 5 scores 50 and is approved with corrected rate 12 and
the installment computed at rate 12. -/
theorem c2_tier_policy_witness :
    check_loan_eligibility ⟨2025, 100⟩ [⟨1, 50000, 1800000, []⟩] 1 0 5 12 =
      some ⟨some ⟨1, 50000, 1800000, []⟩, true, 5, 12, 0⟩
    ∧ calculate_credit_score ⟨2025, 100⟩ ⟨1, 50000, 1800000, []⟩ = 50 := by
  have H := c2_tier_policy ⟨2025, 100⟩ [⟨1, 50000, 1800000, []⟩] 1 0 5 12
    ⟨1, 50000, 1800000, []⟩ (by rfl)
    (by norm_num [totalCurrentEmis, List.filter])
  have h50 : calculate_credit_score ⟨2025, 100⟩ ⟨1, 50000, 1800000, []⟩ = 50 :=
    H.2.2.2.2 rfl (by norm_num)
  refine ⟨?_, h50⟩
  have h2 := H.2.1 (by rw [h50]; norm_num)
  rw [h2]
  norm_num [calculate_monthly_installment, pyRound2, roundHalfEven]

/-- Claim C1 is false on the code: a loan whose end date is absent (null)
is current per the claim, but the filter end_date__gte=today excludes it.
With one open-ended loan of 2000000 against an approved limit of 100000,
the claim forces the hard override (score 0), yet the code scores 75, and
the EMI-burden sum seen by check_loan_eligibility is 0 instead of the
loan's 8791. -/
theorem c1_counterexample :
    specIsCurrent ⟨2025, 100⟩ ⟨2000000, 12, 10, 8791, 12, some ⟨2025, 1⟩, none⟩ = true
    ∧ isCurrent ⟨2025, 100⟩ ⟨2000000, 12, 10, 8791, 12, some ⟨2025, 1⟩, none⟩ = false
    ∧ (⟨1, 50000, 100000,
        [⟨2000000, 12, 10, 8791, 12, some ⟨2025, 1⟩, none⟩]⟩ : Customer).approved_limit
        < ((([⟨2000000, 12, 10, 8791, 12, some ⟨2025, 1⟩, none⟩] :
              List Loan).filter (specIsCurrent ⟨2025, 100⟩)).map Loan.loan_amount).sum
    ∧ calculate_credit_score ⟨2025, 100⟩
        ⟨1, 50000, 100000, [⟨2000000, 12, 10, 8791, 12, some ⟨2025, 1⟩, none⟩]⟩ = 75
    ∧ totalCurrentEmis ⟨2025, 100⟩
        [⟨2000000, 12, 10, 8791, 12, some ⟨2025, 1⟩, none⟩] = 0 := by
  refine ⟨rfl, rfl, ?_, ?_, ?_⟩
  · norm_num [List.filter, specIsCurrent]
  · norm_num [calculate_credit_score, totalCurrentLoanAmount, isCurrent, dateLe,
      List.filter, onTimeFraction, totalEmis, totalPaidOnTime, loanCountScore,
      currentYearLoanCount, startedInCurrentYear, activityScore, totalLoanVolume,
      volumeScore, pyInt]
  · norm_num [totalCurrentEmis, isCurrent, List.filter]

/-- Claim C1 (amended): the set of loans treated as current, both by the
hard override of calculate_credit_score and by the EMI-burden check of
check_loan_eligibility, is exactly the set of the customer's loans whose
end date is PRESENT and on or after today; a loan with an absent (null)
end date is not treated as current. -/
theorem c1_current_filter (today : Date) (c : Customer) :
    (∀ l, isCurrent today l = true ↔ ∃ d, l.end_date = some d ∧ dateLe today d = true)
    ∧ (c.approved_limit <
        ((c.loans.filter fun l => Option.any (fun d => dateLe today d) l.end_date).map
          Loan.loan_amount).sum →
        calculate_credit_score today c = 0)
    ∧ (∀ db cid amount rate tenure, findCustomer db cid = some c →
        (1/2 : ℚ) * c.monthly_salary <
          ((c.loans.filter fun l => Option.any (fun d => dateLe today d) l.end_date).map
            Loan.monthly_repayment).sum →
        check_loan_eligibility today db cid amount rate tenure =
          (calculate_monthly_installment amount rate tenure).map
            (fun emi => ⟨some c, false, rate, rate, emi⟩)) := by
  have hpred : (fun l => Option.any (fun d => dateLe today d) l.end_date) = isCurrent today := by
    funext l
    cases h : l.end_date with
    | none => simp [isCurrent, h, Option.any]
    | some d => simp [isCurrent, h, Option.any]
  refine ⟨?_, ?_, ?_⟩
  · intro l
    cases h : l.end_date with
    | none => simp [isCurrent, h]
    | some d => simp [isCurrent, h]
  · intro hover
    have hover2 : c.approved_limit < totalCurrentLoanAmount today c.loans := by
      unfold totalCurrentLoanAmount
      rw [← hpred]
      exact hover
    unfold calculate_credit_score
    rw [if_pos hover2]
  · intro db cid amount rate tenure hfind hburden
    have hb2 : (1/2 : ℚ) * c.monthly_salary < totalCurrentEmis today c.loans := by
      unfold totalCurrentEmis
      rw [← hpred]
      exact hburden
    unfold check_loan_eligibility
    rw [hfind]
    dsimp only
    simp only [if_pos hb2]

/-- Witness for the amended C1: a loan with a present, future end date is
treated as current by both functions: it triggers the score override
(score 0) and the burden denial. -/
theorem c1_current_filter_witness :
    calculate_credit_score ⟨2025, 100⟩
      ⟨7, 1000, 100, [⟨500, 10, 10, 600, 0, none, some ⟨2025, 200⟩⟩]⟩ = 0
    ∧ check_loan_eligibility ⟨2025, 100⟩
        [⟨7, 1000, 100, [⟨500, 10, 10, 600, 0, none, some ⟨2025, 200⟩⟩]⟩] 7 0 5 12 =
        some ⟨some ⟨7, 1000, 100, [⟨500, 10, 10, 600, 0, none, some ⟨2025, 200⟩⟩]⟩,
          false, 5, 5, 0⟩ := by
  have H := c1_current_filter ⟨2025, 100⟩
    ⟨7, 1000, 100, [⟨500, 10, 10, 600, 0, none, some ⟨2025, 200⟩⟩]⟩
  refine ⟨H.2.1 ?_, ?_⟩
  · norm_num [List.filter, Option.any, dateLe]
  · have h := H.2.2 [⟨7, 1000, 100, [⟨500, 10, 10, 600, 0, none, some ⟨2025, 200⟩⟩]⟩]
      7 0 5 12 (by rfl)
      (by norm_num [List.filter, Option.any, dateLe])
    rw [h]
    norm_num [calculate_monthly_installment, pyRound2, roundHalfEven]

/-- Claim C7: a lookup of an absent customer id returns the not-found
tuple (none, false, requested_rate, requested_rate, 0), and every result
produced for a found customer carries that customer (some c), so a
not-found result is distinguishable from a decided-and-denied one. -/
theorem c7_not_found (today : Date) (db : List Customer) (cid : ℤ)
    (amount rate : ℚ) (tenure : ℤ) :
    (findCustomer db cid = none →
      check_loan_eligibility today db cid amount rate tenure =
        some ⟨none, false, rate, rate, 0⟩)
    ∧ (∀ c res, findCustomer db cid = some c →
        check_loan_eligibility today db cid amount rate tenure = some res →
        res.customer = some c) := by
  constructor
  · intro h
    unfold check_loan_eligibility
    rw [h]
  · intro c res hc hres
    unfold check_loan_eligibility at hres
    rw [hc] at hres
    dsimp only at hres
    split_ifs at hres
    all_goals obtain ⟨emi, -, he⟩ := Option.map_eq_some'.mp hres
    all_goals subst he
    all_goals rfl

/-- Witness for C7: an empty customer table yields the not-found tuple. -/
theorem c7_not_found_witness :
    check_loan_eligibility ⟨2025, 100⟩ [] 1 100000 5 12 =
      some ⟨none, false, 5, 5, 0⟩ :=
  (c7_not_found ⟨2025, 100⟩ [] 1 100000 5 12).1 (by rfl)

/-- Claim C10: whenever check_loan_eligibility returns a tuple (it does not
propagate a ZeroDivisionError), the third component echoes the requested
rate unchanged and the corrected rate is at least the requested rate, in
every branch. -/
theorem c10_rate_not_lowered (today : Date) (db : List Customer) (cid : ℤ)
    (amount rate : ℚ) (tenure : ℤ) (res : EligResult)
    (h : check_loan_eligibility today db cid amount rate tenure = some res) :
    res.interest_rate = rate ∧ rate ≤ res.corrected_rate := by
  unfold check_loan_eligibility at h
  cases hf : findCustomer db cid with
  | none =>
    rw [hf] at h
    dsimp only at h
    simp only [Option.some.injEq] at h
    subst h
    exact ⟨rfl, le_refl rate⟩
  | some c =>
    rw [hf] at h
    dsimp only at h
    split_ifs at h
    all_goals obtain ⟨emi, -, he⟩ := Option.map_eq_some'.mp h
    all_goals subst he
    all_goals refine ⟨rfl, ?_⟩
    all_goals try dsimp only
    all_goals first
      | exact le_refl rate
      | exact not_lt.mp (by assumption)

/-- Witness for C10 at the not-found branch: requested rate 5 is echoed
and not lowered. -/
theorem c10_rate_not_lowered_witness :
    (⟨none, false, 5, 5, 0⟩ : EligResult).interest_rate = 5 ∧
      (5 : ℚ) ≤ (⟨none, false, 5, 5, 0⟩ : EligResult).corrected_rate :=
  c10_rate_not_lowered ⟨2025, 100⟩ [] 1 100000 5 12
    ⟨none, false, 5, 5, 0⟩ (by rfl)

/-- Claim C5 is false on the code at the tie x = 12500: 36 * 12500 =
450000 is exactly 4.5 lakh; Python round is half-to-even, so the code
returns 400000, while round-half-up as the claim states gives 500000. -/
theorem c5_counterexample :
    calculate_approved_limit 12500 = 400000 ∧ specRoundHalfUpLakh 12500 = 500000 := by
  constructor
  · norm_num [calculate_approved_limit, roundHalfEven]
  · norm_num [specRoundHalfUpLakh]

/-- Claim C5 (amended): calculate_approved_limit rounds 36 x income to
the nearest multiple of 100000 with ties to the even multiple (Python
banker's rounding): for non-negative income the result is a multiple of
100000 within 50000 of 36 x income, the claimed examples hold, and the
tie at income 12500 goes to the even multiple 400000. -/
theorem c5_limit_rounding (x : ℤ) (hx : 0 ≤ x) :
    (100000 : ℤ) ∣ calculate_approved_limit x
    ∧ 36 * x - 50000 ≤ calculate_approved_limit x
    ∧ calculate_approved_limit x ≤ 36 * x + 50000
    ∧ calculate_approved_limit 50000 = 1800000
    ∧ calculate_approved_limit 10000 = 400000
    ∧ calculate_approved_limit 12500 = 400000 := by
  have hg := roundHalfEven_ge (((36 * x : ℤ) : ℚ) / 100000)
  have hl := roundHalfEven_le (((36 * x : ℤ) : ℚ) / 100000)
  have key : ((36 * x : ℤ) : ℚ) / 100000 * 100000 = ((36 * x : ℤ) : ℚ) :=
    div_mul_cancel₀ _ (by norm_num)
  have hg2 := mul_le_mul_of_nonneg_right hg (show (0:ℚ) ≤ 100000 by norm_num)
  have hl2 := mul_le_mul_of_nonneg_right hl (show (0:ℚ) ≤ 100000 by norm_num)
  rw [sub_mul, key] at hg2
  rw [add_mul, key] at hl2
  refine ⟨⟨roundHalfEven (((36 * x : ℤ) : ℚ) / 100000),
      by unfold calculate_approved_limit; push_cast; ring⟩, ?_, ?_, ?_, ?_, ?_⟩
  · unfold calculate_approved_limit
    have hg3 : ((36 * x : ℤ) : ℚ) - 50000 ≤
        (roundHalfEven ((36 * x : ℤ) / (100000:ℚ)) : ℚ) * 100000 := by linarith
    exact_mod_cast hg3
  · unfold calculate_approved_limit
    have hl3 : (roundHalfEven ((36 * x : ℤ) / (100000:ℚ)) : ℚ) * 100000 ≤
        ((36 * x : ℤ) : ℚ) + 50000 := by linarith
    exact_mod_cast hl3
  · norm_num [calculate_approved_limit, roundHalfEven]
  · norm_num [calculate_approved_limit, roundHalfEven]
  · norm_num [calculate_approved_limit, roundHalfEven]

/-- Witness for the amended C5 at income 30000 (36 x 30000 = 1080000
rounds up to 1100000, a multiple of 100000 within 50000). -/
theorem c5_limit_rounding_witness :
    (100000 : ℤ) ∣ calculate_approved_limit 30000
    ∧ 36 * 30000 - 50000 ≤ calculate_approved_limit 30000
    ∧ calculate_approved_limit 30000 ≤ 36 * 30000 + 50000
    ∧ calculate_approved_limit 50000 = 1800000
    ∧ calculate_approved_limit 10000 = 400000
    ∧ calculate_approved_limit 12500 = 400000 :=
  c5_limit_rounding 30000 (by norm_num)

/-- Claim C6 is false on the code: a negative tenure does not raise a
ZeroDivisionError; with rate 0 and tenure -1 the call returns
principal / -1, here -100, without error. -/
theorem c6_counterexample :
    (-1 : ℤ) ≤ 0 ∧ calculate_monthly_installment 100 0 (-1) = some (-100) := by
  constructor
  · norm_num
  · norm_num [calculate_monthly_installment]

/-- Claim C6 (amended): the installment formula raises ZeroDivisionError
at tenure 0 for every rate; with rate 0 and any non-zero tenure (negative
included) it returns principal / tenure without error; and for tenure at
least 1 with non-negative principal and rate it completes without error,
returning principal / tenure at rate 0 and the amortization formula
rounded to 2 decimal places otherwise. -/
theorem c6_installment_totality :
    (∀ p r : ℚ, calculate_monthly_installment p r 0 = none)
    ∧ (∀ (p : ℚ) (n : ℤ), n ≠ 0 → calculate_monthly_installment p 0 n = some (p / (n : ℚ)))
    ∧ (∀ (p r : ℚ) (n : ℤ), 0 ≤ p → 0 ≤ r → 1 ≤ n →
        (calculate_monthly_installment p r n).isSome = true
        ∧ (r = 0 → calculate_monthly_installment p r n = some (p / (n : ℚ)))
        ∧ (r ≠ 0 → calculate_monthly_installment p r n =
            some (pyRound2 (p * (r / (12 * 100)) * (1 + r / (12 * 100)) ^ n /
              ((1 + r / (12 * 100)) ^ n - 1))))) := by
  refine ⟨?_, ?_, ?_⟩
  · intro p r
    by_cases hr : r = 0
    · simp [calculate_monthly_installment, hr]
    · simp [calculate_monthly_installment, hr, zpow_zero, sub_self]
  · intro p n hn
    simp [calculate_monthly_installment, hn]
  · intro p r n hp hr hn
    by_cases hr0 : r = 0
    · have heq : calculate_monthly_installment p r n = some (p / (n : ℚ)) := by
        simp [calculate_monthly_installment, hr0, show n ≠ 0 by omega]
      exact ⟨by rw [heq]; rfl, fun _ => heq, fun h => absurd hr0 h⟩
    · have hrpos : 0 < r := lt_of_le_of_ne hr (Ne.symm hr0)
      have hone : 1 < 1 + r / (12 * 100) := by
        have : 0 < r / (12 * 100) := by positivity
        linarith
      obtain ⟨k, hk⟩ : ∃ k : ℕ, n = (k : ℤ) :=
        ⟨n.toNat, (Int.toNat_of_nonneg (by omega)).symm⟩
      have hgrow : 1 < (1 + r / (12 * 100)) ^ n := by
        rw [hk, zpow_natCast]
        exact one_lt_pow₀ hone (by omega)
      have hden : (1 + r / (12 * 100)) ^ n - 1 ≠ 0 := by
        have : 0 < (1 + r / (12 * 100)) ^ n - 1 := by linarith
        exact ne_of_gt this
      have heq : calculate_monthly_installment p r n =
          some (pyRound2 (p * (r / (12 * 100)) * (1 + r / (12 * 100)) ^ n /
            ((1 + r / (12 * 100)) ^ n - 1))) := by
        unfold calculate_monthly_installment
        rw [if_neg hr0]
        dsimp only
        rw [if_neg (show ¬ (n < 0 ∧ 1 + r / (12 * 100) = 0) from
          fun h => absurd h.1 (by omega))]
        rw [if_neg hden]
      exact ⟨by rw [heq]; rfl, fun h => absurd h hr0, fun _ => heq⟩

/-- Witness for the amended C6: tenure 0 fails, a zero-rate loan of
120000 over 12 months costs 10000 per month, and the claimed standard
loan completes without error. -/
theorem c6_installment_totality_witness :
    calculate_monthly_installment 100 5 0 = none
    ∧ calculate_monthly_installment 120000 0 12 = some 10000
    ∧ (calculate_monthly_installment 100000 10 12).isSome = true := by
  refine ⟨c6_installment_totality.1 100 5, ?_,
    (c6_installment_totality.2.2 100000 10 12 (by norm_num) (by norm_num)
      (by norm_num)).1⟩
  have h := c6_installment_totality.2.1 120000 12 (by norm_num)
  rw [h]
  norm_num

/-- Claim C8: under the data-model invariants (non-negative approved
limit, tenures, amounts and installments-paid counts) the credit score
is an integer in [0, 100], and a customer with no loans scores exactly
50. -/
theorem c8_score_range (today : Date) (c : Customer)
    (hlim : 0 ≤ c.approved_limit)
    (hl : ∀ l ∈ c.loans, 0 ≤ l.tenure ∧ 0 ≤ l.emis_paid_on_time ∧ 0 ≤ l.loan_amount) :
    0 ≤ calculate_credit_score today c ∧ calculate_credit_score today c ≤ 100
    ∧ (c.loans = [] → calculate_credit_score today c = 50) := by
  have hmain : 0 ≤ calculate_credit_score today c ∧
      calculate_credit_score today c ≤ 100 := by
    unfold calculate_credit_score
    split_ifs with h1 h2 h3
    · norm_num
    · norm_num
    · dsimp only
      constructor
      · refine le_min (by norm_num) (pyInt_nonneg _ ?_)
        have h35 : 0 ≤ onTimeFraction c.loans * 35 :=
          mul_nonneg (onTimeFraction_nonneg c.loans (fun l hml => (hl l hml).2.1))
            (by norm_num)
        have hc1 := loanCountScore_nonneg c.loans.length
        have hc2 := activityScore_nonneg (currentYearLoanCount today c.loans)
        have hc3 := volumeScore_nonneg (totalLoanVolume c.loans / c.approved_limit)
        linarith
      · exact min_le_left _ _
    · dsimp only
      constructor
      · refine le_min (by norm_num) (pyInt_nonneg _ ?_)
        have h35 : 0 ≤ onTimeFraction c.loans * 35 :=
          mul_nonneg (onTimeFraction_nonneg c.loans (fun l hml => (hl l hml).2.1))
            (by norm_num)
        have hc1 := loanCountScore_nonneg c.loans.length
        have hc2 := activityScore_nonneg (currentYearLoanCount today c.loans)
        have hc3 := volumeScore_nonneg 1
        linarith
      · exact min_le_left _ _
  refine ⟨hmain.1, hmain.2, ?_⟩
  intro hempty
  unfold calculate_credit_score
  rw [hempty]
  rw [if_neg (by
    simp only [totalCurrentLoanAmount, List.filter_nil, List.map_nil, List.sum_nil]
    exact not_lt.mpr hlim)]
  simp

/-- Witness for C8: a well-formed customer with one fully repaid loan
has a score between 0 and 100. -/
theorem c8_score_range_witness :
    0 ≤ calculate_credit_score ⟨2025, 100⟩
      ⟨1, 50000, 1800000, [⟨100000, 12, 10, 8791, 12, some ⟨2024, 40⟩, some ⟨2025, 70⟩⟩]⟩
    ∧ calculate_credit_score ⟨2025, 100⟩
      ⟨1, 50000, 1800000, [⟨100000, 12, 10, 8791, 12, some ⟨2024, 40⟩, some ⟨2025, 70⟩⟩]⟩ ≤ 100
    ∧ ((⟨1, 50000, 1800000,
        [⟨100000, 12, 10, 8791, 12, some ⟨2024, 40⟩, some ⟨2025, 70⟩⟩]⟩ : Customer).loans = [] →
      calculate_credit_score ⟨2025, 100⟩
        ⟨1, 50000, 1800000, [⟨100000, 12, 10, 8791, 12, some ⟨2024, 40⟩, some ⟨2025, 70⟩⟩]⟩ = 50) :=
  c8_score_range ⟨2025, 100⟩
    ⟨1, 50000, 1800000, [⟨100000, 12, 10, 8791, 12, some ⟨2024, 40⟩, some ⟨2025, 70⟩⟩]⟩
    (by norm_num)
    (by
      intro l hml
      rw [List.mem_singleton] at hml
      subst hml
      norm_num)

/-- Claim C9: holding the loan count, current-year activity, total
volume, approved limit, current-loan amounts and total tenure fixed, the
credit score is monotonically non-decreasing in the on-time-payment
ratio (total installments paid on time over total tenure). -/
theorem c9_on_time_monotone (today : Date) (c1 c2 : Customer)
    (hlen : c1.loans.length = c2.loans.length)
    (hyear : currentYearLoanCount today c1.loans = currentYearLoanCount today c2.loans)
    (hvol : totalLoanVolume c1.loans = totalLoanVolume c2.loans)
    (hlim : c1.approved_limit = c2.approved_limit)
    (hcur : totalCurrentLoanAmount today c1.loans = totalCurrentLoanAmount today c2.loans)
    (hten : totalEmis c1.loans = totalEmis c2.loans)
    (hfrac : onTimeFraction c1.loans ≤ onTimeFraction c2.loans) :
    calculate_credit_score today c1 ≤ calculate_credit_score today c2 := by
  unfold calculate_credit_score
  rw [hlim, hcur, hlen, hyear, hvol]
  split_ifs with h1 h2 h3
  · exact le_refl 0
  · exact le_refl 50
  · dsimp only
    refine min_le_min (le_refl 100) (pyInt_mono ?_)
    have h35 := mul_le_mul_of_nonneg_right hfrac (show (0:ℚ) ≤ 35 by norm_num)
    linarith
  · dsimp only
    refine min_le_min (le_refl 100) (pyInt_mono ?_)
    have h35 := mul_le_mul_of_nonneg_right hfrac (show (0:ℚ) ≤ 35 by norm_num)
    linarith

/-- Witness for C9: two customers identical except that the second paid
12 of 12 installments on time instead of 6 of 12; the second scores at
least as high. -/
theorem c9_on_time_monotone_witness :
    calculate_credit_score ⟨2025, 100⟩
      ⟨1, 50000, 1800000, [⟨100000, 12, 10, 8791, 6, some ⟨2024, 40⟩, some ⟨2025, 70⟩⟩]⟩
    ≤ calculate_credit_score ⟨2025, 100⟩
      ⟨1, 50000, 1800000, [⟨100000, 12, 10, 8791, 12, some ⟨2024, 40⟩, some ⟨2025, 70⟩⟩]⟩ :=
  c9_on_time_monotone ⟨2025, 100⟩
    ⟨1, 50000, 1800000, [⟨100000, 12, 10, 8791, 6, some ⟨2024, 40⟩, some ⟨2025, 70⟩⟩]⟩
    ⟨1, 50000, 1800000, [⟨100000, 12, 10, 8791, 12, some ⟨2024, 40⟩, some ⟨2025, 70⟩⟩]⟩
    rfl rfl rfl rfl rfl rfl
    (by norm_num [onTimeFraction, totalEmis, totalPaidOnTime])

end CreditApproval
